import Mathlib

/-!
# Shallow embedding of the MetaDrive `WaymoEnv` per-step evaluator

This file embeds, in Lean, the per-step episode-evaluation core of
`metadrive/envs/real_data_envs/waymo_env.py`:

* `done_function` (termination flags and episode done),
* `cost_function` (priority-ordered safety cost),
* `reward_function` (dense reward, terminal overrides, the cached
  route-lateral write, and the expert-state matcher diagnostics),
* `is_arrive_destination` and `is_out_of_road` (the two predicates),
* `reset_global_seed` (scenario/seed selection with its range assertion).

Real numbers of the Python code are modelled as `ℚ`.  External
collaborators that the source only calls (trajectory projection
`local_coordinates`, `np.linalg.norm`, `waymo_to_metadrive_vector`) are
modelled as input fields or opaque function parameters: their outputs are
data this core consumes, their internals are out of scope.  Fallible
numpy operations (`np.max` of an empty array, an out-of-range index) are
modelled with `Option`: a `none` result marks the exception the Python
code would raise at that point.
-/

/-- Configuration options of `WAYMO_ENV_CONFIG` consumed by the evaluator. -/
structure WaymoConfig where
  success_reward : ℚ
  out_of_road_penalty : ℚ
  crash_vehicle_penalty : ℚ
  crash_object_penalty : ℚ
  driving_reward : ℚ
  use_lateral_reward : Bool
  crash_vehicle_cost : ℚ
  crash_object_cost : ℚ
  out_of_road_cost : ℚ
  out_of_route_done : Bool
  crash_vehicle_done : Bool
  relax_out_of_road_done : Bool
  coordinate_transform : Bool
  start_scenario_index : ℤ
  num_scenario : ℤ
  sequential_seed : Bool

/-- Outputs of `lane.local_coordinates` for one candidate lane:
`long_now, lateral_now` at `vehicle.position` and `long_last` at
`vehicle.last_position`. -/
structure LaneCoords where
  long_now : ℚ
  lat_now : ℚ
  long_last : ℚ

/-- Per-step vehicle state snapshot, together with the outputs of the
external trajectory projections the source queries on it:
`navigation.reference_trajectory.local_coordinates(position)` (fields
`ref_traj_long` / `ref_traj_lat`), `navigation.reference_trajectory.length`
(`ref_traj_length`), and `map_manager.current_sdc_route.local_coordinates
(position)[-1]` (`route_lateral`). -/
structure Vehicle where
  position : ℚ × ℚ
  crash_vehicle : Bool
  crash_object : Bool
  crash_building : Bool
  crash_sidewalk : Bool
  on_yellow_continuous_line : Bool
  on_white_continuous_line : Bool
  lane_in_current_ref_lanes : Bool
  own_lane : LaneCoords
  ref_lane0 : LaneCoords
  ref_traj_long : ℚ
  ref_traj_lat : ℚ
  ref_traj_length : ℚ
  route_lateral : ℚ
  width : ℚ
  length : ℚ

/-- Core-owned mutable per-episode scalars: the cached route-relative
lateral distance (`observations[agent].lateral_dist`) and the episode
step counter. -/
structure EnvState where
  lateral_dist : ℚ
  episode_step : ℕ

/-- The named termination reasons of `done_info`. -/
structure DoneInfo where
  crash_vehicle : Bool
  crash_object : Bool
  crash_building : Bool
  out_of_road : Bool
  arrive_dest : Bool
  crash : Bool

/-- The numeric diagnostics of `step_info` produced by `reward_function`. -/
structure StepInfo where
  step_reward : ℚ
  track_length : ℚ
  current_distance : ℚ
  route_completion : ℚ
  carsize : ℚ × ℚ
  distance_error : Option ℚ
  distance_error_final : Option ℚ

/-- One logged expert track: per-timestep validity mask and 2D positions
(`state["valid"]` and `state["position"][t][:2]`). -/
structure TrackState where
  valid : List Bool
  position : List (ℚ × ℚ)

/-- The scenario record as seen by `reward_function`: `sdc_track` is
`data["tracks"][native_vid]` when that track is present and nonempty,
`none` otherwise. -/
structure ScenarioData where
  sdc_track : Option TrackState

/-- Modelled from the spec: the external `metadrive.utils.clip` utility,
clamping a value into the closed interval between the two bounds
(the utility itself lives outside the provided source file). -/
def clip (a low high : ℚ) : ℚ :=
  if a < low then low else if a > high then high else a

/-- `WaymoEnv._is_arrive_destination`: route completion over the reference
trajectory strictly above `0.95`. -/
def is_arrive_destination (v : Vehicle) : Bool :=
  let route_completion := v.ref_traj_long / v.ref_traj_length
  if route_completion > 95 / 100 then true else false

/-- The inline route-completion disjunct of line 166 of the source,
`route_completion > 1.0`, checked alongside `_is_arrive_destination`
inside `done_function`. -/
def inline_route_completion_check (route_completion : ℚ) : Bool :=
  decide (route_completion > 1)

/-- Modelled from the spec is only the NAME of this variant: the spec
claims the inline check inside the done evaluation uses the same `0.95`
threshold as the dedicated helper.  This definition follows those words,
to be compared against `inline_route_completion_check` taken from the
source. -/
def inline_route_completion_check_spec (route_completion : ℚ) : Bool :=
  decide (route_completion > 95 / 100)

/-- `WaymoEnv._is_out_of_road`, reading the cached route-relative lateral
distance `observations[agent].lateral_dist`. -/
def is_out_of_road (cfg : WaymoConfig) (lateral_dist : ℚ) (v : Vehicle) : Bool :=
  if cfg.relax_out_of_road_done then
    let lat := |lateral_dist|
    let done := decide (lat > 10)
    let done := done || v.on_yellow_continuous_line || v.crash_sidewalk
    done
  else
    let done := v.crash_sidewalk || v.on_yellow_continuous_line || v.on_white_continuous_line
    let done :=
      if cfg.out_of_route_done then done || decide (|lateral_dist| > 10) else done
    done

/-- `WaymoEnv.done_function`: five flag-setting conditionals evaluated in
order with no early exit, then the derived aggregate `crash` flag.  The
environment state is returned unchanged (the source performs no write
here). -/
def done_function (cfg : WaymoConfig) (s : EnvState) (v : Vehicle) :
    (Bool × DoneInfo) × EnvState :=
  let route_completion := v.ref_traj_long / v.ref_traj_length
  let done := false
  let info : DoneInfo :=
    { crash_vehicle := false, crash_object := false, crash_building := false,
      out_of_road := false, arrive_dest := false, crash := false }
  let arrive_cond := is_arrive_destination v || inline_route_completion_check route_completion
  let done := if arrive_cond then true else done
  let info := if arrive_cond then { info with arrive_dest := true } else info
  let oor_cond := is_out_of_road cfg s.lateral_dist v || decide (route_completion < -(1/10))
  let done := if oor_cond then true else done
  let info := if oor_cond then { info with out_of_road := true } else info
  let cv_cond := v.crash_vehicle && cfg.crash_vehicle_done
  let done := if cv_cond then true else done
  let info := if cv_cond then { info with crash_vehicle := true } else info
  let done := if v.crash_object then true else done
  let info := if v.crash_object then { info with crash_object := true } else info
  let done := if v.crash_building then true else done
  let info := if v.crash_building then { info with crash_building := true } else info
  let info := { info with crash := info.crash_vehicle || info.crash_object || info.crash_building }
  ((done, info), s)

/-- `WaymoEnv.cost_function`: first-match priority chain over the same
predicates; the environment state is returned unchanged. -/
def cost_function (cfg : WaymoConfig) (s : EnvState) (v : Vehicle) : ℚ × EnvState :=
  let cost : ℚ := 0
  let cost :=
    if is_out_of_road cfg s.lateral_dist v then cfg.out_of_road_cost
    else if v.crash_vehicle then cfg.crash_vehicle_cost
    else if v.crash_object then cfg.crash_object_cost
    else cost
  (cost, s)

/-- Python sequence indexing `xs[i]` with an `int` index: a negative index
counts from the end; an index out of range raises (modelled as `none`). -/
def pyGet {α : Type} (xs : List α) (i : ℤ) : Option α :=
  let j : ℤ := if 0 ≤ i then i else (xs.length : ℤ) + i
  if 0 ≤ j then xs.get? j.toNat else none

/-- `np.max(np.where(mask == True)[0])`: the largest index at which the
validity mask is true; `none` models the `ValueError` that `np.max`
raises on the empty index array of an all-invalid mask. -/
def largest_valid_index (mask : List Bool) : Option ℕ :=
  match mask with
  | [] => none
  | b :: rest =>
    match largest_valid_index rest with
    | some k => some (k + 1)
    | none => if b then some 0 else none

/-- The backward-walk loop of `reward_function`:
`while mask[current_step] == 0.0: current_step -= 1; if current_step == 0: break`.
The index is an `int` that Python lets go negative (then indexing counts
from the end).  `fuel` bounds the iteration count purely to express the
loop as structural recursion; callers supply fuel exceeding any possible
iteration count, and `none` marks either fuel exhaustion (never reached
with such fuel) or an `IndexError` from an out-of-range mask access. -/
def walk_back (mask : List Bool) : ℕ → ℤ → Option ℤ
  | 0, _ => none
  | fuel + 1, c =>
    match pyGet mask c with
    | none => none
    | some b =>
      if b then some c
      else if c - 1 = 0 then some 0
      else walk_back mask fuel (c - 1)

/-- The expert-state index resolution of `reward_function` (lines
267-277): largest valid index, clamp of the episode step, then the
backward walk. -/
def resolve_step (mask : List Bool) (episode_step : ℕ) : Option ℤ :=
  match largest_valid_index mask with
  | none => none
  | some lvi =>
    let current : ℤ := if (episode_step : ℤ) > (lvi : ℤ) then (lvi : ℤ) else (episode_step : ℤ)
    walk_back mask (mask.length + episode_step + 1) current

/-- The raw (pre-transform) expert position the matcher resolves:
`expert_state_list["position"][current_step][:2]`. -/
def resolve_position (track : TrackState) (episode_step : ℕ) : Option (ℚ × ℚ) :=
  (resolve_step track.valid episode_step).bind fun c => pyGet track.position c

/-- Modelled from the spec is only this SPEC-SIDE variant of the walk, for
comparison with the source's loop: starting from the clamped index, walk
backward to the nearest valid index, and use index `0` — even if invalid —
when no valid index is found on the way. -/
def spec_walk (mask : List Bool) : ℕ → ℕ
  | 0 => 0
  | c + 1 => if mask.get? (c + 1) = some true then c + 1 else spec_walk mask c

/-- The spec's description of the whole resolution: clamp the query index
to `min(step_index, last_valid)`, then `spec_walk`. -/
def resolve_step_spec (mask : List Bool) (episode_step : ℕ) : Option ℕ :=
  match largest_valid_index mask with
  | none => none
  | some lvi => some (spec_walk mask (min episode_step lvi))

/-- `WaymoEnv.reward_function`: dense progress reward, the cached
route-lateral write, the terminal overrides, the diagnostics, and the
expert-state matcher block.  `norm` stands for `np.linalg.norm` on the
2D difference vector and `transform` for `waymo_to_metadrive_vector`,
both external routines.  The first component is the updated environment
state (the `lateral_dist` write happens before the matcher block can
raise); the second is `none` exactly when the matcher block raises. -/
def reward_function (cfg : WaymoConfig) (s : EnvState) (v : Vehicle)
    (data : ScenarioData) (norm : ℚ × ℚ → ℚ) (transform : ℚ × ℚ → ℚ × ℚ) :
    EnvState × Option (ℚ × StepInfo) :=
  let current_lane := if v.lane_in_current_ref_lanes then v.own_lane else v.ref_lane0
  let long_last := current_lane.long_last
  let long_now := current_lane.long_now
  let lateral_now := current_lane.lat_now
  let s := { s with lateral_dist := v.route_lateral }
  let lateral_factor : ℚ :=
    if cfg.use_lateral_reward then clip (1 - 2 * |lateral_now| / 6) 0 1 else 1
  let reward : ℚ := 0
  let reward := reward + cfg.driving_reward * (long_now - long_last) * lateral_factor
  let step_reward := reward
  let reward :=
    if is_arrive_destination v then cfg.success_reward
    else if is_out_of_road cfg s.lateral_dist v then -cfg.out_of_road_penalty
    else if v.crash_vehicle then -cfg.crash_vehicle_penalty
    else if v.crash_object then -cfg.crash_object_penalty
    else reward
  let track_length := v.ref_traj_length
  let current_distance := v.ref_traj_long
  let route_completion := current_distance / track_length
  let base_info : StepInfo :=
    { step_reward := step_reward, track_length := track_length,
      current_distance := current_distance, route_completion := route_completion,
      carsize := (v.width, v.length),
      distance_error := none, distance_error_final := none }
  match data.sdc_track with
  | none => (s, some (reward, base_info))
  | some track =>
    match largest_valid_index track.valid with
    | none => (s, none)
    | some lvi =>
      let current : ℤ :=
        if (s.episode_step : ℤ) > (lvi : ℤ) then (lvi : ℤ) else (s.episode_step : ℤ)
      match walk_back track.valid (track.valid.length + s.episode_step + 1) current with
      | none => (s, none)
      | some c =>
        match pyGet track.position c with
        | none => (s, none)
        | some expert_raw =>
          let expert_xy := if cfg.coordinate_transform then transform expert_raw else expert_raw
          let dist := norm (v.position.1 - expert_xy.1, v.position.2 - expert_xy.2)
          match pyGet track.position (lvi : ℤ) with
          | none => (s, none)
          | some last_raw =>
            let last_expert_xy :=
              if cfg.coordinate_transform then transform last_raw else last_raw
            let last_dist := norm (v.position.1 - last_expert_xy.1, v.position.2 - last_expert_xy.2)
            (s, some (reward,
              { base_info with distance_error := some dist,
                               distance_error_final := some last_dist }))

/-- The seed-candidate computation of `WaymoEnv._reset_global_seed`:
forced seed, else sequential increment with wraparound, else a uniform
draw (`rand_draw` stands for the value the external RNG returned). -/
def select_seed (cfg : WaymoConfig) (global_seed : Option ℤ)
    (force_seed : Option ℤ) (rand_draw : ℤ) : ℤ :=
  match force_seed with
  | some f => f
  | none =>
    if cfg.sequential_seed then
      let c :=
        match global_seed with
        | none => cfg.start_scenario_index
        | some p => p + 1
      if c ≥ cfg.start_scenario_index + cfg.num_scenario then cfg.start_scenario_index
      else c
    else rand_draw

/-- `WaymoEnv._reset_global_seed`: the seed candidate computed by
`select_seed` followed by the final window assertion; raising the
assertion is modelled as `Except.error`. -/
def reset_global_seed (cfg : WaymoConfig) (global_seed : Option ℤ)
    (force_seed : Option ℤ) (rand_draw : ℤ) : Except String ℤ :=
  let current_seed : ℤ := select_seed cfg global_seed force_seed rand_draw
  if cfg.start_scenario_index ≤ current_seed ∧
      current_seed < cfg.start_scenario_index + cfg.num_scenario then
    Except.ok current_seed
  else
    Except.error "seed is out of range"

def dense_reward (cfg : WaymoConfig) (v : Vehicle) : ℚ :=
  let current_lane := if v.lane_in_current_ref_lanes then v.own_lane else v.ref_lane0
  let lateral_factor : ℚ :=
    if cfg.use_lateral_reward then clip (1 - 2 * |current_lane.lat_now| / 6) 0 1 else 1
  cfg.driving_reward * (current_lane.long_now - current_lane.long_last) * lateral_factor

def reward_value (cfg : WaymoConfig) (v : Vehicle) : ℚ :=
  if is_arrive_destination v then cfg.success_reward
  else if is_out_of_road cfg v.route_lateral v then -cfg.out_of_road_penalty
  else if v.crash_vehicle then -cfg.crash_vehicle_penalty
  else if v.crash_object then -cfg.crash_object_penalty
  else dense_reward cfg v


/-- Sample lane coordinates used by the concrete witnesses. -/
def laneEx : LaneCoords := { long_now := 3, lat_now := 0, long_last := 27/10 }

/-- Sample configuration used by the concrete witnesses: the default
termination scheme of `WAYMO_ENV_CONFIG` with distinct cost constants and
the scenario window `[5, 8)`. -/
def cfgEx : WaymoConfig :=
  { success_reward := 10, out_of_road_penalty := 10, crash_vehicle_penalty := 1,
    crash_object_penalty := 1, driving_reward := 1, use_lateral_reward := false,
    crash_vehicle_cost := 2, crash_object_cost := 5, out_of_road_cost := 7,
    out_of_route_done := false, crash_vehicle_done := false,
    relax_out_of_road_done := true, coordinate_transform := true,
    start_scenario_index := 5, num_scenario := 3, sequential_seed := true }

/-- Sample benign vehicle snapshot used by the concrete witnesses:
no collisions, route completion 0.48, zero lateral offsets. -/
def vehEx : Vehicle :=
  { position := (0, 0), crash_vehicle := false, crash_object := false,
    crash_building := false, crash_sidewalk := false,
    on_yellow_continuous_line := false, on_white_continuous_line := false,
    lane_in_current_ref_lanes := true, own_lane := laneEx, ref_lane0 := laneEx,
    ref_traj_long := 48, ref_traj_lat := 0, ref_traj_length := 100,
    route_lateral := 0, width := 2, length := 5 }

/-- Sample episode state used by the concrete witnesses. -/
def sEx : EnvState := { lateral_dist := 0, episode_step := 3 }

/-- The diagnostics record computed by the claim-8 witness: dense reward
0.3 on a track of length 100 at longitudinal position 96, no expert
track. -/
def infoEx : StepInfo :=
  { step_reward := 3/10, track_length := 100, current_distance := 96,
    route_completion := 96/100, carsize := (2, 5),
    distance_error := none, distance_error_final := none }

theorem done_function_flags (cfg : WaymoConfig) (s : EnvState) (v : Vehicle) :
    (done_function cfg s v).1.2.arrive_dest =
      (is_arrive_destination v ||
        inline_route_completion_check (v.ref_traj_long / v.ref_traj_length)) ∧
    (done_function cfg s v).1.2.out_of_road =
      (is_out_of_road cfg s.lateral_dist v ||
        decide (v.ref_traj_long / v.ref_traj_length < -(1/10))) ∧
    (done_function cfg s v).1.2.crash_vehicle = (v.crash_vehicle && cfg.crash_vehicle_done) ∧
    (done_function cfg s v).1.2.crash_object = v.crash_object ∧
    (done_function cfg s v).1.2.crash_building = v.crash_building ∧
    (done_function cfg s v).1.2.crash =
      ((v.crash_vehicle && cfg.crash_vehicle_done) || v.crash_object || v.crash_building) ∧
    (done_function cfg s v).1.1 =
      ((is_arrive_destination v ||
          inline_route_completion_check (v.ref_traj_long / v.ref_traj_length)) ||
        (is_out_of_road cfg s.lateral_dist v ||
          decide (v.ref_traj_long / v.ref_traj_length < -(1/10))) ||
        (v.crash_vehicle && cfg.crash_vehicle_done) || v.crash_object || v.crash_building) := by
  simp only [done_function]
  cases h1 : (is_arrive_destination v ||
      inline_route_completion_check (v.ref_traj_long / v.ref_traj_length)) <;>
    cases h2 : (is_out_of_road cfg s.lateral_dist v ||
        decide (v.ref_traj_long / v.ref_traj_length < -(1/10))) <;>
      cases h3 : (v.crash_vehicle && cfg.crash_vehicle_done) <;>
        cases h4 : v.crash_object <;>
          cases h5 : v.crash_building <;>
            simp_all

theorem pyGet_natCast {α : Type} (xs : List α) (c : ℕ) :
    pyGet xs (c : ℤ) = xs.get? c := by
  simp [pyGet]

theorem largest_valid_index_lt (mask : List Bool) (lvi : ℕ)
    (h : largest_valid_index mask = some lvi) : lvi < mask.length := by
  induction mask generalizing lvi with
  | nil => simp [largest_valid_index] at h
  | cons b rest ih =>
    simp only [largest_valid_index] at h
    cases hr : largest_valid_index rest with
    | some k =>
      rw [hr] at h
      obtain rfl : k + 1 = lvi := by simpa using h
      have := ih k hr
      simp only [List.length_cons]
      omega
    | none =>
      rw [hr] at h
      by_cases hb : b = true
      · simp [hb] at h
        simp [← h]
      · simp [hb] at h

theorem walk_back_eq_spec_walk (mask : List Bool) :
    ∀ c : ℕ, c < mask.length → (1 ≤ c ∨ mask.get? 0 = some true) →
    ∀ fuel : ℕ, c < fuel →
    walk_back mask fuel (c : ℤ) = some ((spec_walk mask c : ℕ) : ℤ) := by
  intro c
  induction c with
  | zero =>
    intro hlen h0 fuel hfuel
    have hb : mask.get? 0 = some true := by
      rcases h0 with h | h
      · omega
      · exact h
    obtain ⟨f, rfl⟩ : ∃ f, fuel = f + 1 := ⟨fuel - 1, by omega⟩
    simp only [walk_back, pyGet_natCast]
    rw [hb]
    simp [spec_walk]
  | succ c ih =>
    intro hlen h0 fuel hfuel
    obtain ⟨f, rfl⟩ : ∃ f, fuel = f + 1 := ⟨fuel - 1, by omega⟩
    simp only [walk_back, pyGet_natCast]
    cases hb : mask.get? (c + 1) with
    | none =>
      rw [List.get?_eq_get hlen] at hb
      cases hb
    | some b =>
      rw [List.get?_eq_getElem?] at hb
      cases b with
      | true => simp [spec_walk, List.get?_eq_getElem?, hb]
      | false =>
        have hsub : ((c + 1 : ℕ) : ℤ) - 1 = (c : ℤ) := by push_cast; ring
        by_cases hc0 : c = 0
        · subst hc0
          simp [spec_walk, List.get?_eq_getElem?, hb]
        · have hne : ¬(((c + 1 : ℕ) : ℤ) - 1 = 0) := by omega
          simp only [if_neg hne, hsub]
          rw [ih (by omega) (Or.inl (by omega)) f (by omega)]
          simp [spec_walk, List.get?_eq_getElem?, hb, hc0]

theorem spec_walk_all_invalid (mask : List Bool) :
    ∀ c : ℕ, (∀ i, i ≤ c → mask.get? i ≠ some true) → spec_walk mask c = 0 := by
  intro c
  induction c with
  | zero => intro _; rfl
  | succ c ih =>
    intro h
    simp only [spec_walk]
    rw [if_neg (h (c + 1) le_rfl)]
    exact ih fun i hi => h i (by omega)

theorem resolve_step_eq_walk_min (mask : List Bool) (step lvi : ℕ)
    (h1 : largest_valid_index mask = some lvi) :
    resolve_step mask step =
      walk_back mask (mask.length + step + 1) ((min step lvi : ℕ) : ℤ) := by
  simp only [resolve_step, h1]
  have hcur : (if (step : ℤ) > (lvi : ℤ) then (lvi : ℤ) else (step : ℤ)) =
      ((min step lvi : ℕ) : ℤ) := by
    split <;> omega
  rw [hcur]

theorem pyGet_natCast_isSome {α : Type} (xs : List α) (c : ℕ) (h : c < xs.length) :
    ∃ p, pyGet xs (c : ℤ) = some p := by
  rw [pyGet_natCast]
  exact ⟨_, List.get?_eq_get h⟩

theorem reward_function_fst (cfg : WaymoConfig) (s : EnvState) (v : Vehicle)
    (data : ScenarioData) (norm : ℚ × ℚ → ℚ) (transform : ℚ × ℚ → ℚ × ℚ) :
    (reward_function cfg s v data norm transform).1 =
      { s with lateral_dist := v.route_lateral } := by
  unfold reward_function
  dsimp only
  repeat' split
  all_goals rfl

theorem reward_function_snd_some (cfg : WaymoConfig) (s : EnvState) (v : Vehicle)
    (data : ScenarioData) (norm : ℚ × ℚ → ℚ) (transform : ℚ × ℚ → ℚ × ℚ)
    (r : ℚ) (info : StepInfo)
    (h : (reward_function cfg s v data norm transform).2 = some (r, info)) :
    r = reward_value cfg v ∧ info.step_reward = dense_reward cfg v := by
  unfold reward_function at h
  dsimp only at h
  repeat' split at h
  all_goals try cases h
  all_goals constructor <;> simp_all [reward_value, dense_reward]

theorem reward_function_matcher_some (cfg : WaymoConfig) (s : EnvState) (v : Vehicle)
    (track : TrackState) (norm : ℚ × ℚ → ℚ) (transform : ℚ × ℚ → ℚ × ℚ)
    (lvi : ℕ) (c : ℤ) (p q : ℚ × ℚ)
    (hL : largest_valid_index track.valid = some lvi)
    (hR : resolve_step track.valid s.episode_step = some c)
    (hp : pyGet track.position c = some p)
    (hq : pyGet track.position (lvi : ℤ) = some q) :
    ((reward_function cfg s v ⟨some track⟩ norm transform).2).isSome = true := by
  have hW : walk_back track.valid (track.valid.length + s.episode_step + 1)
      (if (s.episode_step : ℤ) > (lvi : ℤ) then (lvi : ℤ) else (s.episode_step : ℤ)) =
        some c := by
    simpa [resolve_step, hL] using hR
  unfold reward_function
  dsimp only
  simp only [hL, hW, hp, hq]
  rfl

/-- C3, counterexample: the claim says the inline route-completion check
inside the done evaluation uses the same `0.95` threshold as the
dedicated arrival helper; in fact the source's inline check (line 166)
compares against `1.0`, a second independent constant: at route
completion `0.97` the source's inline check is false while an inline
check built from the claimed shared `0.95` threshold is true (and the
helper itself fires there). -/
theorem claim3_counterexample :
    inline_route_completion_check (97/100) = false ∧
    inline_route_completion_check_spec (97/100) = true ∧
    is_arrive_destination { vehEx with ref_traj_long := 97 } = true := by
  refine ⟨by norm_num [inline_route_completion_check],
    by norm_num [inline_route_completion_check_spec],
    by norm_num [is_arrive_destination, vehEx]⟩

/-- C3 (amended): the inline check inside the done evaluation uses a
second constant, `1.0`, but that check is subsumed by the helper's `0.95`
rule, so the arrive-destination flag is decided by the single effective
threshold `route_completion > 0.95`. -/
theorem claim3_effective_threshold (cfg : WaymoConfig) (s : EnvState) (v : Vehicle) :
    (done_function cfg s v).1.2.arrive_dest =
      decide (v.ref_traj_long / v.ref_traj_length > 95/100) := by
  have h := (done_function_flags cfg s v).1
  rw [h]
  by_cases hrc : v.ref_traj_long / v.ref_traj_length > 95/100
  · simp [is_arrive_destination, hrc]
  · have h1 : ¬(v.ref_traj_long / v.ref_traj_length > 1) := by
      intro hc
      exact hrc (by linarith)
    simp [is_arrive_destination, inline_route_completion_check, hrc, h1]

/-- C4: episode done equals the disjunction of the five reason flags; the
crash-vehicle flag is gated on `crash_vehicle_done` (with it disabled a
vehicle collision alone leaves done false and the flag false); the
crash-object and crash-building flags always follow their collision
flags; and the aggregate crash flag is derived as the disjunction of the
three crash flags, not independently evaluated. -/
theorem claim4_done_structure (cfg : WaymoConfig) (s : EnvState) (v : Vehicle) :
    (done_function cfg s v).1.1 =
      ((done_function cfg s v).1.2.arrive_dest || (done_function cfg s v).1.2.out_of_road ||
        (done_function cfg s v).1.2.crash_vehicle || (done_function cfg s v).1.2.crash_object ||
        (done_function cfg s v).1.2.crash_building) ∧
    (done_function cfg s v).1.2.crash_vehicle = (v.crash_vehicle && cfg.crash_vehicle_done) ∧
    (done_function cfg s v).1.2.crash_object = v.crash_object ∧
    (done_function cfg s v).1.2.crash_building = v.crash_building ∧
    (done_function cfg s v).1.2.crash =
      ((done_function cfg s v).1.2.crash_vehicle || (done_function cfg s v).1.2.crash_object ||
        (done_function cfg s v).1.2.crash_building) ∧
    (cfg.crash_vehicle_done = false → v.crash_vehicle = true →
      (done_function cfg s v).1.2.arrive_dest = false →
      (done_function cfg s v).1.2.out_of_road = false →
      v.crash_object = false → v.crash_building = false →
      (done_function cfg s v).1.1 = false ∧
        (done_function cfg s v).1.2.crash_vehicle = false) := by
  obtain ⟨ha, ho, hcv, hco, hcb, hcr, hd⟩ := done_function_flags cfg s v
  refine ⟨?_, hcv, hco, hcb, ?_, ?_⟩
  · rw [hd, ha, ho, hcv, hco, hcb]
  · rw [hcr, hcv, hco, hcb]
  · intro h1 h2 h3 h4 h5 h6
    rw [ha] at h3
    rw [ho] at h4
    constructor
    · rw [hd, h3, h4, h1, h5, h6]
      simp
    · rw [hcv, h1]
      simp

/-- C4, witness: with vehicle-crash termination disabled, a vehicle
collision alone (no other trigger) leaves episode done false and the
crash-vehicle flag false. -/
theorem claim4_witness :
    (done_function cfgEx sEx { vehEx with crash_vehicle := true }).1.1 = false ∧
    (done_function cfgEx sEx { vehEx with crash_vehicle := true }).1.2.crash_vehicle = false :=
  (claim4_done_structure cfgEx sEx { vehEx with crash_vehicle := true }).2.2.2.2.2
    rfl rfl
    (by norm_num [done_function, is_arrive_destination, inline_route_completion_check,
      is_out_of_road, cfgEx, sEx, vehEx])
    (by norm_num [done_function, is_arrive_destination, inline_route_completion_check,
      is_out_of_road, cfgEx, sEx, vehEx])
    rfl rfl

/-- C5: route completion strictly above 0.95 forces the arrive-dest flag
of the done evaluation, and route completion at or below 0.95 — there is
no other arrival trigger — leaves it false. -/
theorem claim5_arrival_threshold (cfg : WaymoConfig) (s : EnvState) (v : Vehicle) :
    (95/100 < v.ref_traj_long / v.ref_traj_length →
      (done_function cfg s v).1.2.arrive_dest = true) ∧
    (v.ref_traj_long / v.ref_traj_length ≤ 95/100 →
      (done_function cfg s v).1.2.arrive_dest = false) := by
  obtain ⟨ha, -, -, -, -, -, -⟩ := done_function_flags cfg s v
  constructor
  · intro h
    rw [ha]
    simp [is_arrive_destination, h]
  · intro h
    rw [ha]
    have h1 : ¬(95/100 < v.ref_traj_long / v.ref_traj_length) := not_lt.mpr h
    have h2 : ¬((1 : ℚ) < v.ref_traj_long / v.ref_traj_length) := by
      intro hc
      exact h1 (lt_trans (by norm_num) hc)
    simp [is_arrive_destination, inline_route_completion_check, h1, h2]

/-- C5, witness: route completion 0.96 sets the arrive flag, 0.95 exactly
does not. -/
theorem claim5_witness :
    (done_function cfgEx sEx { vehEx with ref_traj_long := 96 }).1.2.arrive_dest = true ∧
    (done_function cfgEx sEx { vehEx with ref_traj_long := 95 }).1.2.arrive_dest = false :=
  ⟨(claim5_arrival_threshold cfgEx sEx { vehEx with ref_traj_long := 96 }).1
     (by norm_num [vehEx]),
   (claim5_arrival_threshold cfgEx sEx { vehEx with ref_traj_long := 95 }).2
     (by norm_num [vehEx])⟩

/-- C6: route completion below -0.1 sets the out-of-road flag of the done
evaluation regardless of all other flags, and in relaxed (default) mode
the out-of-road predicate holds exactly when the cached route-relative
lateral distance strictly exceeds 10 in absolute value, or the vehicle is
on a continuous yellow line, or on a sidewalk. -/
theorem claim6_out_of_road (cfg : WaymoConfig) (s : EnvState) (v : Vehicle) :
    (v.ref_traj_long / v.ref_traj_length < -(1/10) →
      (done_function cfg s v).1.2.out_of_road = true) ∧
    (cfg.relax_out_of_road_done = true →
      is_out_of_road cfg s.lateral_dist v =
        (decide (10 < |s.lateral_dist|) || v.on_yellow_continuous_line || v.crash_sidewalk)) := by
  obtain ⟨-, ho, -, -, -, -, -⟩ := done_function_flags cfg s v
  constructor
  · intro h
    rw [ho]
    have hdec : decide (v.ref_traj_long / v.ref_traj_length < -(1/10)) = true := by
      simpa using h
    rw [hdec]
    simp
  · intro h
    simp [is_out_of_road, h]

/-- C6, witness: route completion -0.2 triggers the out-of-road flag, and
in relaxed mode lateral distance 9.9999 with no line or sidewalk flag
does not trigger the out-of-road predicate. -/
theorem claim6_witness :
    (done_function cfgEx sEx { vehEx with ref_traj_long := -20 }).1.2.out_of_road = true ∧
    is_out_of_road cfgEx (99999/10000) vehEx = false := by
  constructor
  · exact (claim6_out_of_road cfgEx sEx { vehEx with ref_traj_long := -20 }).1
      (by norm_num [vehEx])
  · have h := (claim6_out_of_road cfgEx ⟨99999/10000, 3⟩ vehEx).2 rfl
    have h2 : (decide (10 < |(99999/10000 : ℚ)|) || vehEx.on_yellow_continuous_line ||
        vehEx.crash_sidewalk) = false := by
      have habs : |(99999/10000 : ℚ)| = 99999/10000 := abs_of_nonneg (by norm_num)
      norm_num [vehEx, habs]
    exact h.trans h2

/-- C7: the per-step cost follows mutually exclusive first-match
priority: out-of-road yields the configured out-of-road cost; else a
vehicle crash the vehicle cost; else an object crash the object cost;
else 0 (so a building crash alone contributes no cost). -/
theorem claim7_cost_priority (cfg : WaymoConfig) (s : EnvState) (v : Vehicle) :
    (is_out_of_road cfg s.lateral_dist v = true →
      (cost_function cfg s v).1 = cfg.out_of_road_cost) ∧
    (is_out_of_road cfg s.lateral_dist v = false → v.crash_vehicle = true →
      (cost_function cfg s v).1 = cfg.crash_vehicle_cost) ∧
    (is_out_of_road cfg s.lateral_dist v = false → v.crash_vehicle = false →
      v.crash_object = true → (cost_function cfg s v).1 = cfg.crash_object_cost) ∧
    (is_out_of_road cfg s.lateral_dist v = false → v.crash_vehicle = false →
      v.crash_object = false → (cost_function cfg s v).1 = 0) := by
  refine ⟨?_, ?_, ?_, ?_⟩ <;> intros <;> simp_all [cost_function]

/-- C7, witness: with out-of-road and vehicle-crash both true the cost is
the out-of-road cost (7), which differs from the vehicle cost (2); a
building crash alone yields cost 0. -/
theorem claim7_witness :
    (cost_function cfgEx { sEx with lateral_dist := 20 }
        { vehEx with crash_vehicle := true }).1 = cfgEx.out_of_road_cost ∧
    cfgEx.out_of_road_cost ≠ cfgEx.crash_vehicle_cost ∧
    is_out_of_road cfgEx ({ sEx with lateral_dist := 20 } : EnvState).lateral_dist
      { vehEx with crash_vehicle := true } = true ∧
    (cost_function cfgEx sEx { vehEx with crash_building := true }).1 = 0 :=
  ⟨(claim7_cost_priority cfgEx { sEx with lateral_dist := 20 }
      { vehEx with crash_vehicle := true }).1
     (by norm_num [is_out_of_road, cfgEx, vehEx]),
   by norm_num [cfgEx],
   by norm_num [is_out_of_road, cfgEx, vehEx],
   (claim7_cost_priority cfgEx sEx { vehEx with crash_building := true }).2.2.2
     (by norm_num [is_out_of_road, cfgEx, sEx, vehEx]) rfl rfl⟩

/-- C1, counterexample: the claim describes the backward walk as ending
at index 0 (whose position is used even when invalid), for every mask
with at least one valid frame.  But for mask [0,1] with query index 0 the
clamped index 0 is itself invalid: the loop decrements to -1 before its
stop test can fire, and Python's negative indexing then resolves the last
frame, so the code returns position[1] = (5,5) where the described
algorithm stops at index 0 with position (0,0). -/
theorem claim1_counterexample :
    resolve_step [false, true] 0 = some (-1) ∧
    resolve_step_spec [false, true] 0 = some 0 ∧
    resolve_position ⟨[false, true], [(0, 0), (5, 5)]⟩ 0 = some (5, 5) ∧
    pyGet ([(0, 0), (5, 5)] : List (ℚ × ℚ)) ((0 : ℕ) : ℤ) = some (0, 0) := by
  refine ⟨by decide, by decide, by decide, by decide⟩

/-- C1 (amended): for a mask with at least one valid frame, whenever the
clamped index min(step, last-valid) is at least 1 or frame 0 is valid,
the matcher resolves exactly as the claim describes: clamp, then walk
backward to the nearest valid index, using index 0 even when index 0 is
invalid; in particular mask [1,1,0,0] with query 3 resolves to index 1.
(When the clamped index is 0 and frame 0 is invalid the walk instead
crosses below 0 and negative indexing resolves the last valid frame —
the counterexample.) -/
theorem claim1_matcher_resolution (mask : List Bool) (step lvi : ℕ)
    (h1 : largest_valid_index mask = some lvi)
    (h2 : 1 ≤ min step lvi ∨ mask.get? 0 = some true) :
    resolve_step mask step = (resolve_step_spec mask step).map fun n => (n : ℤ) := by
  have hlt := largest_valid_index_lt mask lvi h1
  rw [resolve_step_eq_walk_min mask step lvi h1]
  rw [walk_back_eq_spec_walk mask (min step lvi) (by omega) h2 _ (by omega)]
  simp [resolve_step_spec, h1]

/-- C1, witness: mask [1,1,0,0] with query index 3 — last valid index 1,
clamp to 1, frame 1 valid — resolves to index 1 and position[1]. -/
theorem claim1_witness :
    largest_valid_index [true, true, false, false] = some 1 ∧
    resolve_step [true, true, false, false] 3 =
      (resolve_step_spec [true, true, false, false] 3).map (fun n => (n : ℤ)) ∧
    resolve_step [true, true, false, false] 3 = some 1 ∧
    resolve_position ⟨[true, true, false, false], [(1, 1), (2, 2), (3, 3), (4, 4)]⟩ 3 =
      some (2, 2) :=
  ⟨by decide,
   claim1_matcher_resolution [true, true, false, false] 3 1 (by decide)
     (Or.inl (by decide)),
   by decide, by decide⟩

/-- C2, counterexample: the claim says a track with no valid frame at all
is not an error and degrades to index 0's position; in fact `np.max` over
the empty valid-index array raises, so the matcher resolves nothing and
the reward step returns no result or diagnostics at all. -/
theorem claim2_counterexample :
    largest_valid_index [false, false] = none ∧
    resolve_step [false, false] 0 = none ∧
    (reward_function cfgEx { sEx with episode_step := 0 } vehEx
        ⟨some ⟨[false, false], [(0, 0), (1, 1)]⟩⟩ (fun p => p.1 + p.2)
        (fun p => p)).2 = none := by
  refine ⟨rfl, rfl, rfl⟩

/-- C2 (amended): the degradation the claim describes holds only when at
least one frame is valid: if the mask has a valid frame, the clamped
index is at least 1, and every frame at or below the clamped index is
invalid, the matcher walks down to index 0 and uses its possibly-invalid
position, without error, and the reward step still returns its result and
diagnostics; a mask with no valid frame at all instead raises. -/
theorem claim2_degradation (track : TrackState) (cfg : WaymoConfig) (s : EnvState)
    (v : Vehicle) (norm : ℚ × ℚ → ℚ) (transform : ℚ × ℚ → ℚ × ℚ) (lvi : ℕ)
    (hL : largest_valid_index track.valid = some lvi)
    (h2 : 1 ≤ min s.episode_step lvi)
    (h3 : ∀ i, i ≤ min s.episode_step lvi → track.valid.get? i ≠ some true)
    (h4 : track.position.length = track.valid.length) :
    resolve_step track.valid s.episode_step = some 0 ∧
    ((reward_function cfg s v ⟨some track⟩ norm transform).2).isSome = true := by
  have hlt := largest_valid_index_lt track.valid lvi hL
  have hres : resolve_step track.valid s.episode_step = some 0 := by
    rw [resolve_step_eq_walk_min track.valid s.episode_step lvi hL]
    rw [walk_back_eq_spec_walk track.valid (min s.episode_step lvi) (by omega)
      (Or.inl h2) _ (by omega)]
    rw [spec_walk_all_invalid track.valid _ h3]
    simp
  refine ⟨hres, ?_⟩
  obtain ⟨p, hp⟩ := pyGet_natCast_isSome track.position 0 (by omega)
  obtain ⟨q, hq⟩ := pyGet_natCast_isSome track.position lvi (by omega)
  exact reward_function_matcher_some cfg s v track norm transform lvi 0 p q hL hres
    (by simpa using hp) hq

/-- C2, witness: mask [0,0,1] at episode step 1 — clamped index 1, frames
0 and 1 invalid — degrades to index 0 and the reward step returns. -/
theorem claim2_witness :
    resolve_step [false, false, true] 1 = some 0 ∧
    ((reward_function cfgEx { sEx with episode_step := 1 } vehEx
        ⟨some ⟨[false, false, true], [(1, 1), (2, 2), (3, 3)]⟩⟩ (fun p => p.1 + p.2)
        (fun p => p)).2).isSome = true :=
  claim2_degradation ⟨[false, false, true], [(1, 1), (2, 2), (3, 3)]⟩ cfgEx
    { sEx with episode_step := 1 } vehEx (fun p => p.1 + p.2) (fun p => p) 2
    (by decide) (by decide) (by decide) (by decide)

/-- C8: whenever the reward step returns, the recorded step-reward
diagnostic is the dense reward `driving_reward * (long_now - long_last) *
lateral_factor` computed before any terminal override, and the returned
reward replaces — never adds to — it, in exclusive priority order:
arrival, else out-of-road (on the freshly written route lateral), else
vehicle crash, else object crash; with no trigger the dense reward
itself is returned. -/
theorem claim8_reward_overrides (cfg : WaymoConfig) (s : EnvState) (v : Vehicle)
    (data : ScenarioData) (norm : ℚ × ℚ → ℚ) (transform : ℚ × ℚ → ℚ × ℚ)
    (r : ℚ) (info : StepInfo)
    (h : (reward_function cfg s v data norm transform).2 = some (r, info)) :
    info.step_reward = dense_reward cfg v ∧
    (is_arrive_destination v = true → r = cfg.success_reward) ∧
    (is_arrive_destination v = false → is_out_of_road cfg v.route_lateral v = true →
      r = -cfg.out_of_road_penalty) ∧
    (is_arrive_destination v = false → is_out_of_road cfg v.route_lateral v = false →
      v.crash_vehicle = true → r = -cfg.crash_vehicle_penalty) ∧
    (is_arrive_destination v = false → is_out_of_road cfg v.route_lateral v = false →
      v.crash_vehicle = false → v.crash_object = true → r = -cfg.crash_object_penalty) ∧
    (is_arrive_destination v = false → is_out_of_road cfg v.route_lateral v = false →
      v.crash_vehicle = false → v.crash_object = false → r = dense_reward cfg v) := by
  obtain ⟨hr, hsr⟩ := reward_function_snd_some cfg s v data norm transform r info h
  subst hr
  refine ⟨hsr, ?_, ?_, ?_, ?_, ?_⟩ <;> intros <;> simp_all [reward_value]

/-- C8, witness: dense reward 0.3 with an arrival trigger yields final
reward `success_reward` = 10, not 0.3 + 10, while the step-reward
diagnostic keeps the dense 0.3. -/
theorem claim8_witness :
    infoEx.step_reward = dense_reward cfgEx { vehEx with ref_traj_long := 96 } ∧
    (10 : ℚ) = cfgEx.success_reward ∧
    dense_reward cfgEx { vehEx with ref_traj_long := 96 } = 3/10 ∧
    (10 : ℚ) ≠ 3/10 + cfgEx.success_reward := by
  have h : (reward_function cfgEx sEx { vehEx with ref_traj_long := 96 } ⟨none⟩
      (fun p => p.1 + p.2) (fun p => p)).2 = some (10, infoEx) := by
    norm_num [reward_function, is_arrive_destination, is_out_of_road, clip,
      cfgEx, sEx, vehEx, laneEx, infoEx]
  refine ⟨?_, ?_, ?_, ?_⟩
  · exact (claim8_reward_overrides cfgEx sEx { vehEx with ref_traj_long := 96 } ⟨none⟩
      (fun p => p.1 + p.2) (fun p => p) 10 infoEx h).1
  · exact (claim8_reward_overrides cfgEx sEx { vehEx with ref_traj_long := 96 } ⟨none⟩
      (fun p => p.1 + p.2) (fun p => p) 10 infoEx h).2.1
      (by norm_num [is_arrive_destination, vehEx])
  · norm_num [dense_reward, clip, cfgEx, vehEx, laneEx]
  · norm_num [cfgEx]

/-- C9: the selected seed — sequential, random draw, or caller-forced —
lies in the scenario window whenever selection succeeds; a forced seed
outside the window fails the final assertion instead of being corrected;
sequential mode starts at the window start with no prior seed and
otherwise increments by one, wrapping to the window start once the
incremented seed reaches the window end. -/
theorem claim9_seed_selection (cfg : WaymoConfig) (gs force : Option ℤ) (rand : ℤ) :
    (∀ sd, reset_global_seed cfg gs force rand = Except.ok sd →
      cfg.start_scenario_index ≤ sd ∧ sd < cfg.start_scenario_index + cfg.num_scenario) ∧
    (∀ f, force = some f →
      ¬(cfg.start_scenario_index ≤ f ∧ f < cfg.start_scenario_index + cfg.num_scenario) →
      (reset_global_seed cfg gs force rand).toOption = none) ∧
    (force = none → cfg.sequential_seed = true → gs = none → 0 < cfg.num_scenario →
      reset_global_seed cfg gs force rand = Except.ok cfg.start_scenario_index) ∧
    (∀ p, force = none → cfg.sequential_seed = true → gs = some p →
      cfg.start_scenario_index ≤ p → p < cfg.start_scenario_index + cfg.num_scenario →
      reset_global_seed cfg gs force rand =
        Except.ok (if cfg.start_scenario_index + cfg.num_scenario ≤ p + 1 then
          cfg.start_scenario_index else p + 1)) := by
  refine ⟨?_, ?_, ?_, ?_⟩
  · intro sd h
    unfold reset_global_seed at h
    dsimp only at h
    split at h
    · next hin =>
      injection h with h1
      subst h1
      exact hin
    · cases h
  · intro f hf hout
    subst hf
    have hsel : select_seed cfg gs (some f) rand = f := rfl
    simp only [reset_global_seed, hsel]
    rw [if_neg hout]
    rfl
  · intro hf hseq hgs hnum
    subst hf
    subst hgs
    have hsel : select_seed cfg none none rand = cfg.start_scenario_index := by
      simp only [select_seed, hseq, if_true]
      rw [if_neg (by omega)]
    simp only [reset_global_seed, hsel]
    rw [if_pos (by omega)]
  · intro p hf hseq hgs hp1 hp2
    subst hf
    subst hgs
    by_cases hw : cfg.start_scenario_index + cfg.num_scenario ≤ p + 1
    · have hsel : select_seed cfg (some p) none rand = cfg.start_scenario_index := by
        simp only [select_seed, hseq, if_true]
        rw [if_pos (by omega)]
      simp only [reset_global_seed, hsel]
      rw [if_pos (by omega), if_pos hw]
    · have hsel : select_seed cfg (some p) none rand = p + 1 := by
        simp only [select_seed, hseq, if_true]
        rw [if_neg (by omega)]
      simp only [reset_global_seed, hsel]
      rw [if_pos (by omega), if_neg hw]

/-- C9, witness: window [5, 8) with prior seed 7 wraps to 5, and a forced
seed 99 outside the window fails the assertion. -/
theorem claim9_witness :
    reset_global_seed cfgEx (some 7) none 0 = Except.ok 5 ∧
    (reset_global_seed cfgEx (some 7) (some 99) 0).toOption = none := by
  constructor
  · have h := (claim9_seed_selection cfgEx (some 7) none 0).2.2.2 7 rfl rfl rfl
      (by norm_num [cfgEx]) (by norm_num [cfgEx])
    rw [h]
    norm_num [cfgEx]
  · exact (claim9_seed_selection cfgEx (some 7) (some 99) 0).2.1 99 rfl
      (by norm_num [cfgEx])

/-- C10: within a step only the reward evaluation writes the cached
route-relative lateral distance; the done and cost evaluations return
the episode state unchanged and depend on it only through the cached
value, so done or cost evaluated before the step's reward observes the
value the previous reward evaluation wrote. -/
theorem claim10_lateral_cache_frame (cfg : WaymoConfig) (s : EnvState) (v v2 : Vehicle)
    (data : ScenarioData) (norm : ℚ × ℚ → ℚ) (transform : ℚ × ℚ → ℚ × ℚ) (e : ℕ) :
    (done_function cfg s v).2 = s ∧
    (cost_function cfg s v).2 = s ∧
    (done_function cfg s v).1 =
      (done_function cfg { lateral_dist := s.lateral_dist, episode_step := e } v).1 ∧
    (cost_function cfg s v).1 =
      (cost_function cfg { lateral_dist := s.lateral_dist, episode_step := e } v).1 ∧
    (reward_function cfg s v data norm transform).1 =
      { s with lateral_dist := v.route_lateral } ∧
    is_out_of_road cfg ((reward_function cfg s v data norm transform).1).lateral_dist v2 =
      is_out_of_road cfg v.route_lateral v2 := by
  refine ⟨rfl, rfl, rfl, rfl, reward_function_fst cfg s v data norm transform, ?_⟩
  rw [reward_function_fst cfg s v data norm transform]
